import Mathlib

/-!
Verification of the concurrent-access coordination layer of the sqlite-mcp
repository (`src/database/multi_agent_manager.py` and
`src/database/connection.py`).

The Python managers are shallowly embedded: the sqlite engine, as used by the
managers, is modelled as a schemaless integer row store keyed by a row `id`
column; the statement strings the managers build and inspect are modelled by a
small statement type together with its rendered SQL text, so that the source's
own string manipulation (`_extract_table_name`, substring-based cache
invalidation) operates on the very strings the code would see.  Wall-clock
waiting is modelled by discrete poll attempts; file-lock availability is an
explicit function from poll index to availability.  The transaction-log file
is `Option (List TxRecord)`, with `none` standing for an unreadable/corrupt
file (the `except` branches of the Python code).
-/

namespace SqliteMcp

/-- Python `str.lower`, character by character (ASCII as used by the managers). -/
def pyLower (cs : List Char) : List Char := cs.map Char.toLower

/-- Python `str.strip`: drop leading and trailing whitespace. -/
def pyStrip (cs : List Char) : List Char :=
  ((cs.dropWhile Char.isWhitespace).reverse.dropWhile Char.isWhitespace).reverse

/-- Python `str.startswith`: `needle` occurs at the start of `hay`. -/
def charsLead : List Char → List Char → Bool
  | [], _ => true
  | _ :: _, [] => false
  | a :: as, b :: bs => a == b && charsLead as bs

/-- Python `needle in hay` on strings: `needle` occurs contiguously in `hay`. -/
def charsSub (needle : List Char) : List Char → Bool
  | [] => needle.isEmpty
  | b :: bs => charsLead needle (b :: bs) || charsSub needle bs

/-- Python substring test `needle in hay` lifted to `String`. -/
def strContains (hay needle : String) : Bool := charsSub needle.data hay.data

/-- Helper of `pyWords`: accumulates the current word (reversed). -/
def wordsAux : List Char → List Char → List String
  | [], acc => if acc.isEmpty then [] else [String.mk acc.reverse]
  | c :: cs, acc =>
    if c.isWhitespace then
      if acc.isEmpty then wordsAux cs [] else String.mk acc.reverse :: wordsAux cs []
    else wordsAux cs (c :: acc)

/-- Python `str.split()` with no argument: split on whitespace runs, no empties. -/
def pyWords (cs : List Char) : List String := wordsAux cs []

/-- Case-insensitive identifier equality (sqlite treats identifiers this way). -/
def ciEq (a b : String) : Bool := pyLower a.data == pyLower b.data

/-! ### The storage engine, as used by the managers -/

/-- A stored row: the `id` column plus the remaining named integer columns. -/
structure Row where
  id : Int
  cols : List (String × Int)
deriving DecidableEq

/-- A table: a name and its rows. -/
structure Table where
  name : String
  rows : List Row
deriving DecidableEq

/-- The database: the tables of the shared file. -/
abbrev DB := List Table

/-- A fetched row as the managers see it (`dict(row)`): column name to value. -/
abbrev RowDict := List (String × Int)

/-- A Python value recorded in the transaction log's `result` field. -/
inductive PyVal
  | int (i : Int)
  | bool (b : Bool)
deriving DecidableEq

/-- The error kinds the coordination layer can raise (spec section 7 taxonomy,
raised in the source as exceptions). -/
inductive DBErr
  | lockTimeout
  | poolExhausted
  | versionConflict (expected actual : Int)
  | stmtError (msg : String)
  | indexError
deriving DecidableEq

/-- Read a column of a row (sqlite identifier lookup is case-insensitive). -/
def getColVal (r : Row) (c : String) : Option Int :=
  if ciEq c "id" then some r.id
  else (r.cols.find? (fun p => ciEq p.1 c)).map (fun p => p.2)

/-- Set a key in a column association list, keeping the stored spelling. -/
def setAssoc : List (String × Int) → String → Int → List (String × Int)
  | [], c, v => [(c, v)]
  | p :: ps, c, v => if ciEq p.1 c then (p.1, v) :: ps else p :: setAssoc ps c v

/-- Write a column of a row. -/
def setColVal (r : Row) (c : String) (v : Int) : Row :=
  if ciEq c "id" then { r with id := v } else { r with cols := setAssoc r.cols c v }

/-- Write several columns of a row, pairwise. -/
def setColsVals (r : Row) : List String → List Int → Row
  | [], _ => r
  | _ :: _, [] => r
  | c :: cs, v :: vs => setColsVals (setColVal r c v) cs vs

/-- Look a table up by (case-insensitive) name. -/
def findTable (db : DB) (t : String) : Option Table :=
  db.find? (fun tb => ciEq tb.name t)

/-- Replace the (first) table of the given name. -/
def putTable : DB → Table → DB
  | [], _ => []
  | tb :: rest, t' => if ciEq tb.name t'.name then t' :: rest else tb :: putTable rest t'

/-- The SQL statements the managers build or receive.  `bad` stands for a
statement text the engine rejects (a failing statement). -/
inductive Stmt
  | updateSet (table : String) (setList : List String)
  | updateConst (table : String) (col : String) (v : Int)
  | replaceInto (table : String) (colList : List String)
  | selectCol (col : String) (table : String)
  | bad (txt : String)
deriving DecidableEq

/-- Renders `c1 = ?, c2 = ?, ...`. -/
def setClause : List String → String
  | [] => ""
  | [c] => c ++ " = ?"
  | c :: c' :: cs => c ++ " = ?, " ++ setClause (c' :: cs)

/-- Renders `c1, c2, ...`. -/
def commaSep : List String → String
  | [] => ""
  | [c] => c
  | c :: c' :: cs => c ++ ", " ++ commaSep (c' :: cs)

/-- Renders `?, ?, ...`. -/
def qMarks : Nat → String
  | 0 => ""
  | 1 => "?"
  | n + 2 => "?, " ++ qMarks (n + 1)

/-- The SQL text of a statement: this is the string the Python code holds
(`query`), inspected by `_extract_table_name` and recorded in the log. -/
def Stmt.text : Stmt → String
  | .updateSet t cs => "UPDATE " ++ t ++ " SET " ++ setClause cs ++ " WHERE id = ?"
  | .updateConst t c v => "UPDATE " ++ t ++ " SET " ++ c ++ " = " ++ toString v ++ " WHERE id = ?"
  | .replaceInto t cs =>
      "REPLACE INTO " ++ t ++ " (id, " ++ commaSep cs ++ ") VALUES (" ++ qMarks (cs.length + 1) ++ ")"
  | .selectCol c t => "SELECT " ++ c ++ " FROM " ++ t ++ " WHERE id = ?"
  | .bad s => s

/-- Result of one engine statement: fetched rows and `cursor.rowcount`. -/
structure ExecOut where
  rows : List RowDict
  rowcount : Int
deriving DecidableEq

/-- Fetch a single column of the rows matching an id (`SELECT c FROM t WHERE id = ?`). -/
def selectRows (tb : Table) (c : String) (i : Int) : Except DBErr (List RowDict) :=
  match (tb.rows.filter (fun r => r.id == i)).mapM
      (fun r => (getColVal r c).map (fun v => [(c, v)])) with
  | none => .error (.stmtError ("no such column: " ++ c))
  | some rs => .ok rs

/-- One `conn.execute(query, params)` call: the engine's semantics for the
statement shapes the managers issue.  Parameters bind positionally, the last
(or only) `?` being the `WHERE id = ?` slot. -/
def execStmt (db : DB) (s : Stmt) (ps : List Int) : Except DBErr (DB × ExecOut) :=
  match s with
  | .selectCol c t =>
    match ps with
    | [i] =>
      match findTable db t with
      | none => .error (.stmtError ("no such table: " ++ t))
      | some tb =>
        match selectRows tb c i with
        | .error e => .error e
        | .ok rs => .ok (db, ⟨rs, -1⟩)
    | _ => .error (.stmtError "wrong number of bindings")
  | .updateSet t cs =>
    if ps.length == cs.length + 1 then
      match findTable db t with
      | none => .error (.stmtError ("no such table: " ++ t))
      | some tb =>
        match ps.getLast? with
        | none => .error (.stmtError "wrong number of bindings")
        | some i =>
          let vals := ps.take cs.length
          let rows' := tb.rows.map (fun r => if r.id == i then setColsVals r cs vals else r)
          let n := (tb.rows.filter (fun r => r.id == i)).length
          .ok (putTable db ⟨tb.name, rows'⟩, ⟨[], (n : Int)⟩)
    else .error (.stmtError "wrong number of bindings")
  | .updateConst t c v =>
    match ps with
    | [i] =>
      match findTable db t with
      | none => .error (.stmtError ("no such table: " ++ t))
      | some tb =>
        let rows' := tb.rows.map (fun r => if r.id == i then setColVal r c v else r)
        let n := (tb.rows.filter (fun r => r.id == i)).length
        .ok (putTable db ⟨tb.name, rows'⟩, ⟨[], (n : Int)⟩)
    | _ => .error (.stmtError "wrong number of bindings")
  | .replaceInto t cs =>
    match ps with
    | i :: vals =>
      if vals.length == cs.length then
        match findTable db t with
        | none => .error (.stmtError ("no such table: " ++ t))
        | some tb =>
          let rows' := (tb.rows.filter (fun r => !(r.id == i))) ++ [⟨i, cs.zip vals⟩]
          .ok (putTable db ⟨tb.name, rows'⟩, ⟨[], 1⟩)
      else .error (.stmtError "wrong number of bindings")
    | [] => .error (.stmtError "wrong number of bindings")
  | .bad m => .error (.stmtError m)

/-- Run a transaction body: the statements executed one after another on the
connection, stopping at the first failure (the `for` loop of the two
`execute_transaction` variants). -/
def runOps (db : DB) : List (Stmt × List Int) → Except DBErr DB
  | [] => .ok db
  | (q, ps) :: rest =>
    match execStmt db q ps with
    | .error e => .error e
    | .ok (db', _) => runOps db' rest

deriving instance DecidableEq for Except

/-! ### Transaction log (`<db>.transactions` JSON file) -/

/-- One record of the append-only transaction log (`_log_transaction`). -/
structure TxRecord where
  timestamp : Int
  agent_id : String
  session_id : String
  operation : String
  query : String
  params : List Int
  result : PyVal
deriving DecidableEq

/-- The on-disk log file: `none` models an unreadable/corrupt file, which makes
every file access in the Python code raise (and be swallowed or defaulted). -/
abbrev TxLogFile := Option (List TxRecord)

/-- `MultiAgentDatabaseManager._log_transaction`: append one record; a failure
to read the file is swallowed (best-effort logging). -/
def log_transaction (f : TxLogFile) (tx : TxRecord) : TxLogFile :=
  match f with
  | none => none
  | some l => some (l ++ [tx])

/-- `MultiAgentDatabaseManager.get_transaction_history`: the most recent
`limit` records (`transactions[-limit:] if limit > 0 else transactions`);
on a failing read the exception is swallowed and `[]` returned. -/
def get_transaction_history (f : TxLogFile) (limit : Int) : List TxRecord :=
  match f with
  | none => []
  | some l => if 0 < limit then l.drop (l.length - limit.toNat) else l

/-- `MultiAgentDatabaseManager.cleanup_old_transactions`: keep records with
`timestamp > now - max_age_hours * 3600`, return the new file and the removed
count; on a failing read the exception is swallowed and `0` returned. -/
def cleanup_old_transactions (f : TxLogFile) (now : Int) (max_age_hours : Int) :
    TxLogFile × Nat :=
  match f with
  | none => (none, 0)
  | some l =>
    let cutoff := now - max_age_hours * 3600
    let kept := l.filter (fun tx => cutoff < tx.timestamp)
    (some kept, l.length - kept.length)

/-- Python `str(operations)` as recorded for multi-statement transactions. -/
def opsText (ops : List (Stmt × List Int)) : String :=
  toString (ops.map (fun p => (p.1.text, p.2)))

/-! ### Cross-process file lock (`_get_file_lock`) -/

/-- The poll loop of `_get_file_lock`: attempts `avail k` for successive poll
indices `k` (one per 100ms sleep) while fuel remains. -/
def pollLock (avail : Nat → Bool) : Nat → Nat → Bool
  | 0, _ => false
  | fuel + 1, k => if avail k then true else pollLock avail fuel (k + 1)

/-- `MultiAgentDatabaseManager._get_file_lock`: one non-blocking attempt
(poll index 0), then on failure a 100ms-interval poll until the lock is
obtained or `timeoutSec` elapses (`timeoutSec * 1000 / 100` further
attempts).  `avail k` says whether the flock would succeed at attempt `k`. -/
def get_file_lock (avail : Nat → Bool) (timeoutSec : Nat) : Bool :=
  if avail 0 then true else pollLock avail (timeoutSec * 1000 / 100) 1

/-! ### `MultiAgentDatabaseManager` entry points -/

/-- `_extract_table_name`: lowercase and strip the query text, then read the
table token after `update ` / `insert into ` / `delete from `. -/
def extract_table_name (query : String) : Option String :=
  let ql := pyStrip (pyLower query.data)
  if charsLead "update ".data ql then
    match pyWords ql with
    | _ :: t :: _ => some t
    | _ => none
  else if charsLead "insert into ".data ql then
    match pyWords ql with
    | _ :: _ :: t :: _ => some t
    | _ => none
  else if charsLead "delete from ".data ql then
    match pyWords ql with
    | _ :: _ :: t :: _ => some t
    | _ => none
  else none

/-- Outcome of `execute_query_with_consistency`: the returned rows (or the
raised error), the log file afterwards, and whether the cross-process file
lock was acquired for the call. -/
structure QueryOut where
  res : Except DBErr (List RowDict)
  txlog : TxLogFile
  fileLockTried : Bool
deriving DecidableEq

/-- The shared body of the two consistency branches: run the query on a fresh
connection (closed without commit, so the database is unchanged), log it,
return the fetched rows. -/
def runQueryStmt (db : DB) (txlog : TxLogFile) (now : Int) (agent session : String)
    (query : Stmt) (params : List Int) (tried : Bool) : QueryOut :=
  match execStmt db query params with
  | .error e => ⟨.error e, txlog, tried⟩
  | .ok (_, out) =>
    ⟨.ok out.rows,
     log_transaction txlog
       ⟨now, agent, session, "query", query.text, params, .int (out.rows.length : Int)⟩,
     tried⟩

/-- `MultiAgentDatabaseManager.execute_query_with_consistency`: the file lock
is taken only for the `"serializable"` level; a lock timeout raises. -/
def execute_query_with_consistency (db : DB) (txlog : TxLogFile) (now : Int)
    (agent session : String) (avail : Nat → Bool)
    (query : Stmt) (params : List Int) (consistency_level : String) : QueryOut :=
  if consistency_level == "serializable" then
    if get_file_lock avail 30 then
      runQueryStmt db txlog now agent session query params true
    else ⟨.error .lockTimeout, txlog, true⟩
  else
    runQueryStmt db txlog now agent session query params false

/-- Outcome of `execute_update_with_optimistic_lock`: the affected-row count
(or the raised error), the database and log afterwards, whether the file lock
was acquired, and how many engine statements were executed. -/
structure UpdateOut where
  res : Except DBErr Int
  db : DB
  txlog : TxLogFile
  fileLockTried : Bool
  stmtsRun : Nat
deriving DecidableEq

/-- The optimistic-lock precheck of `execute_update_with_optimistic_lock`
(lines 216-224): skipped when no (non-empty) version column and version value
are supplied or no table name can be extracted; otherwise a point lookup of
the version column keyed by `params[0]` (an `IndexError` if `params` is
empty), raising a version conflict only when a row was found and its version
differs.  Returns the verdict and the number of statements it executed. -/
def versionPrecheck (db : DB) (query : Stmt) (params : List Int)
    (version_column : Option String) (version_value : Option Int) :
    Except DBErr Unit × Nat :=
  match version_column, version_value with
  | some vc, some vv =>
    if vc == "" then (.ok (), 0)
    else
      match extract_table_name query.text with
      | none => (.ok (), 0)
      | some t =>
        match params.head? with
        | none => (.error .indexError, 0)
        | some p0 =>
          match execStmt db (.selectCol vc t) [p0] with
          | .error e => (.error e, 1)
          | .ok (_, out) =>
            match out.rows.head? with
            | none => (.ok (), 1)
            | some row =>
              match row.head? with
              | none => (.ok (), 1)
              | some p =>
                if p.2 == vv then (.ok (), 1)
                else (.error (.versionConflict vv p.2), 1)
  | _, _ => (.ok (), 0)

/-- `MultiAgentDatabaseManager.execute_update_with_optimistic_lock`: under the
write lock, acquire the file lock unconditionally (raising a lock timeout on
failure), run the optimistic version precheck, then execute and commit the
update and log it. -/
def execute_update_with_optimistic_lock (db : DB) (txlog : TxLogFile) (now : Int)
    (agent session : String) (avail : Nat → Bool)
    (query : Stmt) (params : List Int)
    (version_column : Option String) (version_value : Option Int) : UpdateOut :=
  if get_file_lock avail 30 then
    match versionPrecheck db query params version_column version_value with
    | (.error e, n) => ⟨.error e, db, txlog, true, n⟩
    | (.ok _, n) =>
      match execStmt db query params with
      | .error e => ⟨.error e, db, txlog, true, n + 1⟩
      | .ok (db', out) =>
        ⟨.ok out.rowcount, db',
         log_transaction txlog
           ⟨now, agent, session, "update", query.text, params, .int out.rowcount⟩,
         true, n + 1⟩
  else ⟨.error .lockTimeout, db, txlog, true, 0⟩

/-- Outcome of `execute_transaction_with_isolation`: the returned success flag
(or the raised lock error), database and log afterwards, whether the file
lock was acquired, and the `read_uncommitted` pragma value that was set. -/
structure TxnOut where
  res : Except DBErr Bool
  db : DB
  txlog : TxLogFile
  fileLockTried : Bool
  readUncommitted : Option Int
deriving DecidableEq

/-- `MultiAgentDatabaseManager.execute_transaction_with_isolation`: under the
write lock, acquire the file lock unconditionally (for every isolation
level), set the `read_uncommitted` pragma (0 for both `"serializable"` and
`"read_committed"`, 1 otherwise), run all statements, commit on success, and
on any statement failure roll back everything and return `false`. -/
def execute_transaction_with_isolation (db : DB) (txlog : TxLogFile) (now : Int)
    (agent session : String) (avail : Nat → Bool)
    (ops : List (Stmt × List Int)) (isolation_level : String) : TxnOut :=
  if get_file_lock avail 30 then
    let pr : Int :=
      if isolation_level == "serializable" then 0
      else if isolation_level == "read_committed" then 0
      else 1
    match runOps db ops with
    | .ok db' =>
      ⟨.ok true, db',
       log_transaction txlog ⟨now, agent, session, "transaction", opsText ops, [], .bool true⟩,
       true, some pr⟩
    | .error _ =>
      ⟨.ok false, db,
       log_transaction txlog ⟨now, agent, session, "transaction", opsText ops, [], .bool false⟩,
       true, some pr⟩
  else ⟨.error .lockTimeout, db, txlog, true, none⟩

/-! ### `ThreadSafeDatabaseManager` (`src/database/connection.py`) -/

/-- The connection pool: how many connections sit idle in the queue, how many
are checked out, and the construction-time capacity. -/
structure PoolState where
  free : Nat
  checkedOut : Nat
  maxConn : Nat
deriving DecidableEq

/-- `_init_connection_pool`: pre-creates exactly `maxConn` connections and
puts them all in the queue. -/
def init_connection_pool (maxConn : Nat) : PoolState :=
  { free := maxConn, checkedOut := 0, maxConn := maxConn }

/-- `_get_connection_from_pool`: `Queue.get(timeout=timeoutSec)` — hand out an
idle connection if one is available within the wait bound (the source passes
5), otherwise raise the pool-exhausted error; never creates a connection. -/
def get_connection_from_pool (s : PoolState) (timeoutSec : Nat) :
    Except DBErr PoolState :=
  if 0 < s.free then .ok { s with free := s.free - 1, checkedOut := s.checkedOut + 1 }
  else .error .poolExhausted

/-- One scheduling event against the pool, from any of the concurrent
callers. -/
inductive PoolAction
  | acquire
  | acquireTimeout
  | release
  | releaseFailClose
deriving DecidableEq

/-- Interleaving semantics of the pool: an acquire succeeds only from the
queue; a timed-out acquire changes nothing; `_return_connection_to_pool`
returns the connection, or closes it if the put itself fails. -/
def poolStep (s : PoolState) : PoolAction → PoolState
  | .acquire =>
    match get_connection_from_pool s 5 with
    | .ok s' => s'
    | .error _ => s
  | .acquireTimeout => s
  | .release =>
    if 0 < s.checkedOut then
      if s.free < s.maxConn then
        { s with checkedOut := s.checkedOut - 1, free := s.free + 1 }
      else { s with checkedOut := s.checkedOut - 1 }
    else s
  | .releaseFailClose =>
    if 0 < s.checkedOut then { s with checkedOut := s.checkedOut - 1 } else s

/-- Run any interleaving of pool events. -/
def runPool (s : PoolState) : List PoolAction → PoolState
  | [] => s
  | a :: rest => runPool (poolStep s a) rest

/-- `ThreadSafeDatabaseManager.execute_transaction`: under the write lock, on
one checked-out connection, run every statement; commit on success, roll all
of them back on the first failure and return `false`. -/
def execute_transaction (db : DB) (ops : List (Stmt × List Int)) : DB × Bool :=
  match runOps db ops with
  | .ok db' => (db', true)
  | .error _ => (db, false)

/-! ### `ConsistencyManager` -/

/-- One entry of the consistency cache (`_consistency_cache`). -/
structure CacheEntry where
  data : List RowDict
  timestamp : Int
  query_hash : String
deriving DecidableEq

/-- The consistency cache, keyed by caller-supplied cache keys. -/
abbrev Cache := List (String × CacheEntry)

/-- Stand-in for the md5 hexdigest of `f"{query}{params}"`; stored only, never
read back by any code path. -/
def queryHash (q : String) (ps : List Int) : String := q ++ toString ps

/-- Python dict update `cache[k] = e` (one entry per key). -/
def setCache (c : Cache) (k : String) (e : CacheEntry) : Cache :=
  c.filter (fun p => !(p.1 == k)) ++ [(k, e)]

/-- `ConsistencyManager._validate_cache`: entry younger than the 60-second
freshness window. -/
def validate_cache (now : Int) (e : CacheEntry) : Bool := now - e.timestamp < 60

/-- Outcome of `read_with_cache_validation`: the rows (or the raised error),
the log and cache afterwards, and whether the database was queried at all. -/
structure CMReadOut where
  res : Except DBErr (List RowDict)
  txlog : TxLogFile
  cache : Cache
  queried : Bool
deriving DecidableEq

/-- The cache-miss path of `read_with_cache_validation`: execute at the
`"read_committed"` tier, then store the result under the key (if any) with a
fresh timestamp. -/
def cmRunQuery (db : DB) (txlog : TxLogFile) (cache : Cache) (now : Int)
    (agent session : String) (avail : Nat → Bool)
    (query : Stmt) (params : List Int) (cache_key : Option String) : CMReadOut :=
  let q := execute_query_with_consistency db txlog now agent session avail
      query params "read_committed"
  match q.res with
  | .error e => ⟨.error e, q.txlog, cache, true⟩
  | .ok rows =>
    match cache_key with
    | some k =>
      ⟨.ok rows, q.txlog, setCache cache k ⟨rows, now, queryHash query.text params⟩, true⟩
    | none => ⟨.ok rows, q.txlog, cache, true⟩

/-- `ConsistencyManager.read_with_cache_validation`: serve a supplied key from
the cache when the entry is still fresh, otherwise query and re-cache. -/
def read_with_cache_validation (db : DB) (txlog : TxLogFile) (cache : Cache) (now : Int)
    (agent session : String) (avail : Nat → Bool)
    (query : Stmt) (params : List Int) (cache_key : Option String) : CMReadOut :=
  match cache_key with
  | some k =>
    match cache.find? (fun p => p.1 == k) with
    | some p =>
      if validate_cache now p.2 then ⟨.ok p.2.data, txlog, cache, false⟩
      else cmRunQuery db txlog cache now agent session avail query params (some k)
    | none => cmRunQuery db txlog cache now agent session avail query params (some k)
  | none => cmRunQuery db txlog cache now agent session avail query params none

/-- `ConsistencyManager._clear_related_cache`: drop every key containing the
table name or `str(record_id)` as a substring. -/
def clear_related_cache (cache : Cache) (table_name : String) (record_id : Int) : Cache :=
  cache.filter (fun p => !(strContains p.1 table_name || strContains p.1 (toString record_id)))

/-- Outcome of `update_with_version_check`: the returned success flag, and the
database, log and cache afterwards. -/
structure CMUpdateOut where
  success : Bool
  db : DB
  txlog : TxLogFile
  cache : Cache
deriving DecidableEq

/-- `ConsistencyManager.update_with_version_check`: read the current version
at the `"read_committed"` tier, compute `new_version = current + 1`, append
`(new_version, record_id)` to the caller's parameters, delegate to the
optimistic update, clear the related cache entries on success, and return
`affected_rows > 0` — every raised exception is caught and turned into
`false` with no cache invalidation. -/
def update_with_version_check (db : DB) (txlog : TxLogFile) (cache : Cache) (now : Int)
    (agent session : String) (avail : Nat → Bool)
    (query : Stmt) (params : List Int) (table_name : String) (record_id : Int) :
    CMUpdateOut :=
  let vq := execute_query_with_consistency db txlog now agent session avail
      (.selectCol "version" table_name) [record_id] "read_committed"
  match vq.res with
  | .error _ => ⟨false, db, vq.txlog, cache⟩
  | .ok rows =>
    match rows.head? with
    | none => ⟨false, db, vq.txlog, cache⟩
    | some row =>
      match row.find? (fun p => p.1 == "version") with
      | none => ⟨false, db, vq.txlog, cache⟩
      | some pv =>
        let update_params := params ++ [pv.2 + 1, record_id]
        let u := execute_update_with_optimistic_lock db vq.txlog now agent session avail
            query update_params (some "version") (some pv.2)
        match u.res with
        | .error _ => ⟨false, u.db, u.txlog, cache⟩
        | .ok affected =>
          ⟨decide (0 < affected), u.db, u.txlog, clear_related_cache cache table_name record_id⟩

/-! ### General lemmas about the embedding -/

theorem ciEq_refl (a : String) : ciEq a a = true := by
  simp [ciEq]

theorem ciEq_comm (a b : String) : ciEq a b = ciEq b a := by
  unfold ciEq
  by_cases h : pyLower a.data = pyLower b.data
  · simp [h]
  · have h' : ¬pyLower b.data = pyLower a.data := fun e => h e.symm
    simp [h, h']

theorem runQueryStmt_tried (db : DB) (txlog : TxLogFile) (now : Int)
    (agent session : String) (q : Stmt) (ps : List Int) (tried : Bool) :
    (runQueryStmt db txlog now agent session q ps tried).fileLockTried = tried := by
  unfold runQueryStmt
  cases h : execStmt db q ps <;> simp

theorem pollLock_all_false (avail : Nat → Bool) (h : ∀ k, avail k = false) :
    ∀ fuel i, pollLock avail fuel i = false := by
  intro fuel
  induction fuel with
  | zero => intro i; rfl
  | succ n ih => intro i; simp [pollLock, h i, ih (i + 1)]

theorem pollLock_of_avail (avail : Nat → Bool) :
    ∀ fuel i j, i ≤ j → j < i + fuel → avail j = true → pollLock avail fuel i = true := by
  intro fuel
  induction fuel with
  | zero => intro i j h1 h2 h3; omega
  | succ n ih =>
    intro i j h1 h2 h3
    by_cases hij : i = j
    · subst hij; simp [pollLock, h3]
    · cases ha : avail i
      · simp only [pollLock, ha, Bool.false_eq_true, if_false]
        exact ih (i + 1) j (by omega) (by omega) h3
      · simp [pollLock, ha]

theorem runOps_append (l1 : List (Stmt × List Int)) : ∀ (db : DB) (l2 : List (Stmt × List Int)),
    runOps db (l1 ++ l2) =
      match runOps db l1 with
      | .ok d => runOps d l2
      | .error e => .error e := by
  induction l1 with
  | nil => intro db l2; rfl
  | cons p rest ih =>
    intro db l2
    rcases p with ⟨q, ps⟩
    simp only [List.cons_append, runOps]
    cases h : execStmt db q ps
    · rfl
    · rename_i out
      exact ih out.1 l2

/-! ### Claim theorems -/

/-- C10: `execute_transaction_with_isolation` behaves identically for the
isolation levels `"serializable"` and `"read_committed"`: same pragma, same
locks, same result, same database state. -/
theorem claim_c10 (db : DB) (txlog : TxLogFile) (now : Int) (agent session : String)
    (avail : Nat → Bool) (ops : List (Stmt × List Int)) :
    execute_transaction_with_isolation db txlog now agent session avail ops "serializable" =
      execute_transaction_with_isolation db txlog now agent session avail ops "read_committed" := by
  unfold execute_transaction_with_isolation
  cases hg : get_file_lock avail 30
  · simp
  · cases hr : runOps db ops <;> simp

/-- C3 counterexample: a multi-statement transaction requesting the weaker
`"read_committed"` tier nevertheless acquires the cross-process file lock,
refuting the claim that weaker-tier operations complete without attempting
it. -/
theorem claim_c3_cex :
    (execute_transaction_with_isolation [] (some []) 0 "a" "s" (fun _ => true)
      [] "read_committed").fileLockTried = true := by
  rfl

/-- C3 (amended): only `execute_query_with_consistency` conditions the
cross-process file lock on the tier — a query at any level other than
`"serializable"` never attempts it while a serializable query does —
whereas `execute_update_with_optimistic_lock` and
`execute_transaction_with_isolation` acquire the file lock on every call,
whatever tier is requested. -/
theorem claim_c3 (db : DB) (txlog : TxLogFile) (now : Int) (agent session : String)
    (avail : Nat → Bool) (q : Stmt) (ps : List Int) (level : String)
    (ops : List (Stmt × List Int)) (iso : String)
    (vc : Option String) (vv : Option Int)
    (h : (level == "serializable") = false) :
    (execute_query_with_consistency db txlog now agent session avail q ps level).fileLockTried
        = false ∧
    (execute_query_with_consistency db txlog now agent session avail q ps
        "serializable").fileLockTried = true ∧
    (execute_update_with_optimistic_lock db txlog now agent session avail q ps
        vc vv).fileLockTried = true ∧
    (execute_transaction_with_isolation db txlog now agent session avail ops
        iso).fileLockTried = true := by
  refine ⟨?_, ?_, ?_, ?_⟩
  · unfold execute_query_with_consistency
    simp [h, runQueryStmt_tried]
  · unfold execute_query_with_consistency
    cases hg : get_file_lock avail 30 <;> simp [runQueryStmt_tried]
  · unfold execute_update_with_optimistic_lock
    cases hg : get_file_lock avail 30
    · rfl
    · rcases hv : versionPrecheck db q ps vc vv with ⟨res, n⟩
      cases res
      · simp [hv]
      · cases he : execStmt db q ps <;> simp [hv, he]
  · unfold execute_transaction_with_isolation
    cases hg : get_file_lock avail 30
    · rfl
    · cases hr : runOps db ops <;> simp

/-- C3 witness: the amended statement at a concrete weaker tier. -/
theorem claim_c3_witness :
    (("read_committed" == "serializable") = false) ∧
    ((execute_query_with_consistency [] (some []) 0 "a" "s" (fun _ => true) (.bad "x") []
        "read_committed").fileLockTried = false ∧
     (execute_query_with_consistency [] (some []) 0 "a" "s" (fun _ => true) (.bad "x") []
        "serializable").fileLockTried = true ∧
     (execute_update_with_optimistic_lock [] (some []) 0 "a" "s" (fun _ => true) (.bad "x") []
        none none).fileLockTried = true ∧
     (execute_transaction_with_isolation [] (some []) 0 "a" "s" (fun _ => true) []
        "read_uncommitted").fileLockTried = true) :=
  ⟨by decide,
   claim_c3 [] (some []) 0 "a" "s" (fun _ => true) (.bad "x") [] "read_committed" []
     "read_uncommitted" none none (by decide)⟩

theorem poolStep_maxConn (s : PoolState) (a : PoolAction) :
    (poolStep s a).maxConn = s.maxConn := by
  cases a
  · by_cases hf : 0 < s.free <;> simp [poolStep, get_connection_from_pool, hf]
  · rfl
  · by_cases hc : 0 < s.checkedOut
    · by_cases hf : s.free < s.maxConn <;> simp [poolStep, hc, hf]
    · simp [poolStep, hc]
  · by_cases hc : 0 < s.checkedOut <;> simp [poolStep, hc]

theorem poolStep_inv (s : PoolState) (a : PoolAction)
    (h : s.free + s.checkedOut ≤ s.maxConn) :
    (poolStep s a).free + (poolStep s a).checkedOut ≤ (poolStep s a).maxConn := by
  cases a
  · by_cases hf : 0 < s.free <;>
      simp [poolStep, get_connection_from_pool, hf] <;> omega
  · simpa [poolStep] using h
  · by_cases hc : 0 < s.checkedOut
    · by_cases hf : s.free < s.maxConn <;> simp [poolStep, hc, hf] <;> omega
    · simpa [poolStep, hc] using h
  · by_cases hc : 0 < s.checkedOut <;> simp [poolStep, hc] <;> omega

theorem runPool_inv (acts : List PoolAction) : ∀ s : PoolState,
    s.free + s.checkedOut ≤ s.maxConn →
    (runPool s acts).free + (runPool s acts).checkedOut ≤ (runPool s acts).maxConn := by
  induction acts with
  | nil => intro s h; simpa [runPool] using h
  | cons a rest ih =>
    intro s h
    simp only [runPool]
    exact ih _ (poolStep_inv s a h)

theorem runPool_maxConn (acts : List PoolAction) : ∀ s : PoolState,
    (runPool s acts).maxConn = s.maxConn := by
  induction acts with
  | nil => intro s; rfl
  | cons a rest ih =>
    intro s
    simp only [runPool]
    rw [ih, poolStep_maxConn]

/-- C4: the pool's capacity invariant.  Construction pre-creates exactly
`maxConn` connections (all idle, none checked out); under any interleaving of
acquire/timeout/release events the total number of live connections, and in
particular the number checked out simultaneously, never exceeds `maxConn`;
and an acquire that finds the queue empty fails with the pool-exhausted error
after its bounded 5-unit wait instead of creating a connection. -/
theorem claim_c4 (maxConn : Nat) (acts : List PoolAction) (s : PoolState)
    (h : s.free = 0) :
    (init_connection_pool maxConn).free = maxConn ∧
    (init_connection_pool maxConn).checkedOut = 0 ∧
    (runPool (init_connection_pool maxConn) acts).free
      + (runPool (init_connection_pool maxConn) acts).checkedOut ≤ maxConn ∧
    (runPool (init_connection_pool maxConn) acts).checkedOut ≤ maxConn ∧
    get_connection_from_pool s 5 = .error .poolExhausted := by
  have h1 := runPool_inv acts (init_connection_pool maxConn) (by simp [init_connection_pool])
  rw [runPool_maxConn acts (init_connection_pool maxConn)] at h1
  have h2 : (init_connection_pool maxConn).maxConn = maxConn := rfl
  rw [h2] at h1
  refine ⟨rfl, rfl, h1, by omega, ?_⟩
  unfold get_connection_from_pool
  simp [h]

/-- C4 witness: capacity 2, a concrete interleaving, and an exhausted pool. -/
theorem claim_c4_witness :
    (PoolState.mk 0 2 2).free = 0 ∧
    ((init_connection_pool 2).free = 2 ∧
     (init_connection_pool 2).checkedOut = 0 ∧
     (runPool (init_connection_pool 2)
        [.acquire, .acquire, .acquireTimeout, .release, .acquire]).free
       + (runPool (init_connection_pool 2)
        [.acquire, .acquire, .acquireTimeout, .release, .acquire]).checkedOut ≤ 2 ∧
     (runPool (init_connection_pool 2)
        [.acquire, .acquire, .acquireTimeout, .release, .acquire]).checkedOut ≤ 2 ∧
     get_connection_from_pool (PoolState.mk 0 2 2) 5 = .error .poolExhausted) :=
  ⟨rfl, claim_c4 2 [.acquire, .acquire, .acquireTimeout, .release, .acquire]
    (PoolState.mk 0 2 2) rfl⟩

/-- C5: when the cross-process lock never becomes available, the non-blocking
attempt and every 100ms poll fail, `_get_file_lock` returns failure at the
default 30s timeout (300 polls), and the caller's update aborts with the
lock-timeout error before any statement has executed — database and
transaction log untouched, no internal retry; while a lock that becomes
available at some poll index within the budget is obtained. -/
theorem claim_c5 (avail avail2 : Nat → Bool) (j : Nat) (db : DB) (txlog : TxLogFile)
    (now : Int) (agent session : String) (q : Stmt) (ps : List Int)
    (vc : Option String) (vv : Option Int)
    (h1 : ∀ k, avail k = false) (h2 : ∀ k, avail2 k = decide (k = j)) (h3 : j ≤ 300) :
    get_file_lock avail 30 = false ∧
    execute_update_with_optimistic_lock db txlog now agent session avail q ps vc vv =
      ⟨.error .lockTimeout, db, txlog, true, 0⟩ ∧
    get_file_lock avail2 30 = true := by
  have hlock : get_file_lock avail 30 = false := by
    unfold get_file_lock
    simp [h1 0, pollLock_all_false avail h1]
  refine ⟨hlock, ?_, ?_⟩
  · unfold execute_update_with_optimistic_lock
    simp [hlock]
  · unfold get_file_lock
    rcases Nat.eq_zero_or_pos j with hj | hj
    · subst hj
      simp [h2 0]
    · have h0 : avail2 0 = false := by
        rw [h2 0]
        simp
        omega
      simp only [h0, Bool.false_eq_true, if_false]
      exact pollLock_of_avail avail2 (30 * 1000 / 100) 1 j hj (by omega)
        (by rw [h2 j]; simp)

/-- C5 witness: a permanently unavailable lock and one available at poll 5. -/
theorem claim_c5_witness :
    (∀ k : Nat, (fun _ : Nat => false) k = false) ∧
    ((5 : Nat) ≤ 300) ∧
    (get_file_lock (fun _ => false) 30 = false ∧
     execute_update_with_optimistic_lock [] (some []) 0 "a" "s" (fun _ => false)
       (.bad "x") [] none none = ⟨.error .lockTimeout, [], some [], true, 0⟩ ∧
     get_file_lock (fun k => decide (k = 5)) 30 = true) :=
  ⟨fun _ => rfl, by omega,
   claim_c5 (fun _ => false) (fun k => decide (k = 5)) 5 [] (some []) 0 "a" "s"
     (.bad "x") [] none none (fun _ => rfl) (fun _ => rfl) (by omega)⟩

theorem foldl_log_transaction (new : List TxRecord) : ∀ l0 : List TxRecord,
    new.foldl log_transaction (some l0) = some (l0 ++ new) := by
  induction new with
  | nil => intro l0; simp
  | cons tx rest ih =>
    intro l0
    simp only [List.foldl_cons, log_transaction]
    rw [ih (l0 ++ [tx])]
    simp

/-- C6: transaction-log round trip.  Appending `N ≥ 1` records to any prior
log and reading history with `limit = N` returns exactly those `N` records in
append order (and from an empty log this holds for every `N`); cleanup with
`max_age = 0` at a time no record postdates removes every record, leaves the
log empty, and returns the removed count. -/
theorem claim_c6 (l0 new l : List TxRecord) (now : Int)
    (h1 : 0 < new.length) (h2 : ∀ tx ∈ l, tx.timestamp ≤ now) :
    get_transaction_history (new.foldl log_transaction (some l0)) (new.length : Int) = new ∧
    get_transaction_history (new.foldl log_transaction (some [])) (new.length : Int) = new ∧
    cleanup_old_transactions (some l) now 0 = (some [], l.length) := by
  have hist : ∀ l0' : List TxRecord,
      get_transaction_history (new.foldl log_transaction (some l0')) (new.length : Int) = new := by
    intro l0'
    rw [foldl_log_transaction new l0']
    unfold get_transaction_history
    have hpos : (0 : Int) < (new.length : Int) := by exact_mod_cast h1
    simp only [hpos, if_true]
    simp [List.drop_left]
  refine ⟨hist l0, hist [], ?_⟩
  unfold cleanup_old_transactions
  have hkeep : l.filter (fun tx => decide (now - 0 * 3600 < tx.timestamp)) = [] := by
    apply List.filter_eq_nil_iff.mpr
    intro tx htx
    simp only [decide_eq_true_eq]
    have := h2 tx htx
    omega
  simp only [hkeep]
  simp

/-- C6 witness: two records appended to a nonempty log, then emptied. -/
theorem claim_c6_witness :
    (0 < ([⟨5, "a", "s", "query", "q1", [], .int 0⟩,
           ⟨6, "a", "s", "update", "q2", [1], .int 1⟩] : List TxRecord).length) ∧
    (∀ tx ∈ ([⟨5, "a", "s", "query", "q1", [], .int 0⟩] : List TxRecord),
        tx.timestamp ≤ (9 : Int)) ∧
    (get_transaction_history
        (([⟨5, "a", "s", "query", "q1", [], .int 0⟩,
           ⟨6, "a", "s", "update", "q2", [1], .int 1⟩] : List TxRecord).foldl log_transaction
          (some [⟨1, "b", "t", "query", "q0", [], .int 0⟩]))
        (([⟨5, "a", "s", "query", "q1", [], .int 0⟩,
           ⟨6, "a", "s", "update", "q2", [1], .int 1⟩] : List TxRecord).length : Int) =
        [⟨5, "a", "s", "query", "q1", [], .int 0⟩,
         ⟨6, "a", "s", "update", "q2", [1], .int 1⟩] ∧
     get_transaction_history
        (([⟨5, "a", "s", "query", "q1", [], .int 0⟩,
           ⟨6, "a", "s", "update", "q2", [1], .int 1⟩] : List TxRecord).foldl log_transaction
          (some []))
        (([⟨5, "a", "s", "query", "q1", [], .int 0⟩,
           ⟨6, "a", "s", "update", "q2", [1], .int 1⟩] : List TxRecord).length : Int) =
        [⟨5, "a", "s", "query", "q1", [], .int 0⟩,
         ⟨6, "a", "s", "update", "q2", [1], .int 1⟩] ∧
     cleanup_old_transactions (some [⟨1, "b", "t", "query", "q0", [], .int 0⟩]) 9 0 =
        (some [], 1)) := by
  refine ⟨by decide, ?_, ?_⟩
  · intro tx htx
    simp only [List.mem_singleton] at htx
    subst htx
    decide
  · exact claim_c6 [⟨1, "b", "t", "query", "q0", [], .int 0⟩]
      [⟨5, "a", "s", "query", "q1", [], .int 0⟩, ⟨6, "a", "s", "update", "q2", [1], .int 1⟩]
      [⟨1, "b", "t", "query", "q0", [], .int 0⟩] 9 (by decide)
      (by intro tx htx
          simp only [List.mem_singleton] at htx
          subst htx
          decide)

/-- C2: a multi-statement transaction in which some statement fails after the
first `N` statements succeeded performs a full rollback: the database is left
in its pre-transaction state and the call returns the `false`/failure result,
both for `execute_transaction_with_isolation` (any isolation level) and for
`ThreadSafeDatabaseManager.execute_transaction` — never a partial commit. -/
theorem claim_c2 (db db1 : DB) (txlog : TxLogFile) (now : Int) (agent session : String)
    (avail : Nat → Bool) (iso : String) (e : DBErr) (q : Stmt) (ps : List Int)
    (pre rest : List (Stmt × List Int))
    (hlock : get_file_lock avail 30 = true)
    (hpre : runOps db pre = .ok db1)
    (hfail : execStmt db1 q ps = .error e) :
    (execute_transaction_with_isolation db txlog now agent session avail
        (pre ++ (q, ps) :: rest) iso).res = .ok false ∧
    (execute_transaction_with_isolation db txlog now agent session avail
        (pre ++ (q, ps) :: rest) iso).db = db ∧
    execute_transaction db (pre ++ (q, ps) :: rest) = (db, false) := by
  have hrun : runOps db (pre ++ (q, ps) :: rest) = .error e := by
    rw [runOps_append pre db ((q, ps) :: rest), hpre]
    simp [runOps, hfail]
  constructor
  · unfold execute_transaction_with_isolation
    simp [hlock, hrun]
  constructor
  · unfold execute_transaction_with_isolation
    simp [hlock, hrun]
  · unfold execute_transaction
    simp [hrun]

/-- C2 witness: one successful update, then a failing statement, on a one-row
table. -/
theorem claim_c2_witness :
    (get_file_lock (fun _ => true) 30 = true) ∧
    (runOps [⟨"users", [⟨1, [("version", 3)]⟩]⟩] [(.updateConst "users" "version" 4, [1])] =
      .ok [⟨"users", [⟨1, [("version", 4)]⟩]⟩]) ∧
    (execStmt [⟨"users", [⟨1, [("version", 4)]⟩]⟩] (.bad "oops") [] =
      .error (.stmtError "oops")) ∧
    ((execute_transaction_with_isolation [⟨"users", [⟨1, [("version", 3)]⟩]⟩] (some []) 0
        "a" "s" (fun _ => true)
        ([(.updateConst "users" "version" 4, [1])] ++ (.bad "oops", []) ::
          [(.updateConst "users" "version" 5, [1])]) "serializable").res = .ok false ∧
     (execute_transaction_with_isolation [⟨"users", [⟨1, [("version", 3)]⟩]⟩] (some []) 0
        "a" "s" (fun _ => true)
        ([(.updateConst "users" "version" 4, [1])] ++ (.bad "oops", []) ::
          [(.updateConst "users" "version" 5, [1])]) "serializable").db =
        [⟨"users", [⟨1, [("version", 3)]⟩]⟩] ∧
     execute_transaction [⟨"users", [⟨1, [("version", 3)]⟩]⟩]
        ([(.updateConst "users" "version" 4, [1])] ++ (.bad "oops", []) ::
          [(.updateConst "users" "version" 5, [1])]) =
        ([⟨"users", [⟨1, [("version", 3)]⟩]⟩], false)) :=
  ⟨rfl, by decide, by decide,
   claim_c2 [⟨"users", [⟨1, [("version", 3)]⟩]⟩] [⟨"users", [⟨1, [("version", 4)]⟩]⟩]
     (some []) 0 "a" "s" (fun _ => true) "serializable" (.stmtError "oops") (.bad "oops") []
     [(.updateConst "users" "version" 4, [1])] [(.updateConst "users" "version" 5, [1])]
     rfl (by decide) (by decide)⟩

/-- C8 counterexample: failures are silently downgraded to defaults — a
failing (unreadable-file) history read returns the empty list, a failing
cleanup returns `0`, and a failing version-checked update (here: the record
does not exist because the table is absent) returns plain `false`; none of
the three surfaces an error to the caller, refuting the claim. -/
theorem claim_c8_cex :
    get_transaction_history none 100 = [] ∧
    cleanup_old_transactions none 0 24 = (none, 0) ∧
    (update_with_version_check [] (some []) [] 0 "a" "s" (fun _ => true)
      (.updateConst "t" "version" 1) [] "t" 1).success = false :=
  ⟨rfl, rfl, rfl⟩

/-- C8 (amended): the core manager raises structured, kind-distinguishable
errors (for example the lock-timeout error on an unavailable file lock), but
the three observability/wrapper operations swallow failures and downgrade
them to defaults: `get_transaction_history` returns `[]` for every limit when
the log file cannot be read, `cleanup_old_transactions` returns `0`, and
`ConsistencyManager.update_with_version_check` returns `false` (here: when
the record's version row cannot be found), without surfacing any error. -/
theorem claim_c8 (limit now mah : Int) (db : DB) (txlog : TxLogFile) (cache : Cache)
    (now2 : Int) (agent session : String) (avail avail2 : Nat → Bool)
    (q : Stmt) (ps : List Int) (t : String) (rid : Int)
    (vc : Option String) (vv : Option Int)
    (hnorow : execStmt db (.selectCol "version" t) [rid] = .ok (db, ⟨[], -1⟩))
    (h2 : ∀ k, avail2 k = false) :
    get_transaction_history none limit = [] ∧
    cleanup_old_transactions none now mah = (none, 0) ∧
    (update_with_version_check db txlog cache now2 agent session avail q ps t rid).success
        = false ∧
    (update_with_version_check db txlog cache now2 agent session avail q ps t rid).db = db ∧
    (update_with_version_check db txlog cache now2 agent session avail q ps t rid).cache
        = cache ∧
    (execute_update_with_optimistic_lock db txlog now2 agent session avail2 q ps vc vv).res
        = .error .lockTimeout := by
  have hlock2 : get_file_lock avail2 30 = false := by
    unfold get_file_lock
    simp [h2 0, pollLock_all_false avail2 h2]
  have hvq : execute_query_with_consistency db txlog now2 agent session avail
      (.selectCol "version" t) [rid] "read_committed" =
      ⟨.ok [], log_transaction txlog
        ⟨now2, agent, session, "query", (Stmt.selectCol "version" t).text, [rid], .int 0⟩,
       false⟩ := by
    unfold execute_query_with_consistency runQueryStmt
    simp [hnorow]
  refine ⟨rfl, rfl, ?_, ?_, ?_, ?_⟩
  · unfold update_with_version_check
    rw [hvq]
    rfl
  · unfold update_with_version_check
    rw [hvq]
    rfl
  · unfold update_with_version_check
    rw [hvq]
    rfl
  · unfold execute_update_with_optimistic_lock
    simp [hlock2]

/-- C8 witness: the amended statement at a concrete missing record and a
permanently unavailable lock. -/
theorem claim_c8_witness :
    (execStmt [⟨"users", []⟩] (.selectCol "version" "users") [7] =
      .ok ([⟨"users", []⟩], ⟨[], -1⟩)) ∧
    (∀ k : Nat, (fun _ : Nat => false) k = false) ∧
    (get_transaction_history none 100 = [] ∧
     cleanup_old_transactions none 0 24 = (none, 0) ∧
     (update_with_version_check [⟨"users", []⟩] (some []) [("users:7", ⟨[], 0, "h"⟩)] 0
        "a" "s" (fun _ => true) (.updateConst "users" "version" 1) [] "users" 7).success
        = false ∧
     (update_with_version_check [⟨"users", []⟩] (some []) [("users:7", ⟨[], 0, "h"⟩)] 0
        "a" "s" (fun _ => true) (.updateConst "users" "version" 1) [] "users" 7).db =
        [⟨"users", []⟩] ∧
     (update_with_version_check [⟨"users", []⟩] (some []) [("users:7", ⟨[], 0, "h"⟩)] 0
        "a" "s" (fun _ => true) (.updateConst "users" "version" 1) [] "users" 7).cache =
        [("users:7", ⟨[], 0, "h"⟩)] ∧
     (execute_update_with_optimistic_lock [⟨"users", []⟩] (some []) 0 "a" "s"
        (fun _ => false) (.updateConst "users" "version" 1) [] none none).res =
        .error .lockTimeout) :=
  ⟨by decide, fun _ => rfl,
   claim_c8 100 0 24 [⟨"users", []⟩] (some []) [("users:7", ⟨[], 0, "h"⟩)] 0 "a" "s"
     (fun _ => true) (fun _ => false) (.updateConst "users" "version" 1) [] "users" 7
     none none (by decide) (fun _ => rfl)⟩

/-- C7: reads with a supplied cache key are served from a fresh (younger than
60 seconds) cached entry without querying the database; on a missing or stale
entry the query is executed at the `"read_committed"` tier and the result is
stored under the key with the current timestamp and returned; and a
successful versioned update clears exactly the cache entries whose key
contains the table name or the record id as a substring. -/
theorem claim_c7 (db : DB) (txlog : TxLogFile) (now : Int) (agent session : String)
    (avail : Nat → Bool) (q : Stmt) (ps : List Int)
    (cache1 : Cache) (k1 : String) (e1 : CacheEntry)
    (cache2 : Cache) (k2 : String) (rows2 : List RowDict)
    (cache4 : Cache) (k4 : String) (e4 : CacheEntry)
    (db3 : DB) (txlog3 : TxLogFile) (cache3 : Cache) (now3 : Int)
    (agent3 session3 : String) (avail3 : Nat → Bool)
    (q3 : Stmt) (ps3 : List Int) (t3 : String) (rid3 : Int)
    (hhit : cache1.find? (fun p => p.1 == k1) = some (k1, e1))
    (hfresh : validate_cache now e1 = true)
    (hmiss : cache2.find? (fun p => p.1 == k2) = none)
    (hq2 : (execute_query_with_consistency db txlog now agent session avail q ps
        "read_committed").res = .ok rows2)
    (hstale : cache4.find? (fun p => p.1 == k4) = some (k4, e4))
    (hold : validate_cache now e4 = false)
    (hsucc : (update_with_version_check db3 txlog3 cache3 now3 agent3 session3 avail3
        q3 ps3 t3 rid3).success = true) :
    read_with_cache_validation db txlog cache1 now agent session avail q ps (some k1) =
      ⟨.ok e1.data, txlog, cache1, false⟩ ∧
    read_with_cache_validation db txlog cache2 now agent session avail q ps (some k2) =
      ⟨.ok rows2,
       (execute_query_with_consistency db txlog now agent session avail q ps
         "read_committed").txlog,
       setCache cache2 k2 ⟨rows2, now, queryHash q.text ps⟩, true⟩ ∧
    read_with_cache_validation db txlog cache4 now agent session avail q ps (some k4) =
      ⟨.ok rows2,
       (execute_query_with_consistency db txlog now agent session avail q ps
         "read_committed").txlog,
       setCache cache4 k4 ⟨rows2, now, queryHash q.text ps⟩, true⟩ ∧
    (update_with_version_check db3 txlog3 cache3 now3 agent3 session3 avail3
        q3 ps3 t3 rid3).cache = clear_related_cache cache3 t3 rid3 := by
  have hrun : ∀ c : Cache, ∀ k : String,
      cmRunQuery db txlog c now agent session avail q ps (some k) =
        ⟨.ok rows2,
         (execute_query_with_consistency db txlog now agent session avail q ps
           "read_committed").txlog,
         setCache c k ⟨rows2, now, queryHash q.text ps⟩, true⟩ := by
    intro c k
    simp only [cmRunQuery]
    rw [hq2]
  refine ⟨?_, ?_, ?_, ?_⟩
  · simp only [read_with_cache_validation]
    rw [hhit]
    simp [hfresh]
  · simp only [read_with_cache_validation]
    rw [hmiss, hrun]
  · simp only [read_with_cache_validation]
    rw [hstale]
    simp only [hold, Bool.false_eq_true, if_false]
    rw [hrun]
  · rcases hres : (execute_query_with_consistency db3 txlog3 now3 agent3 session3 avail3
        (.selectCol "version" t3) [rid3] "read_committed").res with e | rows
    · simp only [update_with_version_check, hres] at hsucc
      exact absurd hsucc (by simp)
    · rcases rows with _ | ⟨row, rest⟩
      · simp only [update_with_version_check, hres, List.head?_nil] at hsucc
        exact absurd hsucc (by simp)
      · rcases hf : row.find? (fun p => p.1 == "version") with _ | pv
        · simp only [update_with_version_check, hres, List.head?_cons, hf] at hsucc
          exact absurd hsucc (by simp)
        · rcases hu : (execute_update_with_optimistic_lock db3
              (execute_query_with_consistency db3 txlog3 now3 agent3 session3 avail3
                (.selectCol "version" t3) [rid3] "read_committed").txlog
              now3 agent3 session3 avail3 q3 (ps3 ++ [pv.2 + 1, rid3])
              (some "version") (some pv.2)).res with e' | aff
          · simp only [update_with_version_check, hres, List.head?_cons, hf, hu] at hsucc
            exact absurd hsucc (by simp)
          · simp only [update_with_version_check, hres, List.head?_cons, hf, hu]

/-- C7 witness: a fresh hit, a miss, a stale entry, and a successful
versioned update that clears the matching keys, all concrete. -/
theorem claim_c7_witness :
    (([("users:1", (⟨[[("name", 0)]], 50, "h"⟩ : CacheEntry))] : Cache).find?
        (fun p => p.1 == "users:1") = some ("users:1", ⟨[[("name", 0)]], 50, "h"⟩)) ∧
    (validate_cache 100 ⟨[[("name", 0)]], 50, "h"⟩ = true) ∧
    (([] : Cache).find? (fun p => p.1 == "k2") = none) ∧
    ((execute_query_with_consistency [⟨"users", [⟨1, [("version", 3), ("name", 0)]⟩]⟩]
        (some []) 100 "a" "s" (fun _ => true) (.selectCol "name" "users") [1]
        "read_committed").res = .ok [[("name", 0)]]) ∧
    (([("k4", (⟨[], 10, "h"⟩ : CacheEntry))] : Cache).find? (fun p => p.1 == "k4") =
        some ("k4", ⟨[], 10, "h"⟩)) ∧
    (validate_cache 100 ⟨[], 10, "h"⟩ = false) ∧
    ((update_with_version_check [⟨"users", [⟨1, [("version", 3), ("name", 0)]⟩]⟩]
        (some []) [("users:1", ⟨[[("name", 0)]], 50, "h"⟩)] 100 "a" "s" (fun _ => true)
        (.updateSet "users" ["name", "version"]) [9] "users" 1).success = true) ∧
    (read_with_cache_validation [⟨"users", [⟨1, [("version", 3), ("name", 0)]⟩]⟩]
        (some []) [("users:1", ⟨[[("name", 0)]], 50, "h"⟩)] 100 "a" "s" (fun _ => true)
        (.selectCol "name" "users") [1] (some "users:1") =
      ⟨.ok [[("name", 0)]], some [], [("users:1", ⟨[[("name", 0)]], 50, "h"⟩)], false⟩ ∧
     read_with_cache_validation [⟨"users", [⟨1, [("version", 3), ("name", 0)]⟩]⟩]
        (some []) [] 100 "a" "s" (fun _ => true)
        (.selectCol "name" "users") [1] (some "k2") =
      ⟨.ok [[("name", 0)]],
       (execute_query_with_consistency [⟨"users", [⟨1, [("version", 3), ("name", 0)]⟩]⟩]
         (some []) 100 "a" "s" (fun _ => true) (.selectCol "name" "users") [1]
         "read_committed").txlog,
       setCache [] "k2" ⟨[[("name", 0)]], 100,
         queryHash (Stmt.selectCol "name" "users").text [1]⟩, true⟩ ∧
     read_with_cache_validation [⟨"users", [⟨1, [("version", 3), ("name", 0)]⟩]⟩]
        (some []) [("k4", ⟨[], 10, "h"⟩)] 100 "a" "s" (fun _ => true)
        (.selectCol "name" "users") [1] (some "k4") =
      ⟨.ok [[("name", 0)]],
       (execute_query_with_consistency [⟨"users", [⟨1, [("version", 3), ("name", 0)]⟩]⟩]
         (some []) 100 "a" "s" (fun _ => true) (.selectCol "name" "users") [1]
         "read_committed").txlog,
       setCache [("k4", ⟨[], 10, "h"⟩)] "k4" ⟨[[("name", 0)]], 100,
         queryHash (Stmt.selectCol "name" "users").text [1]⟩, true⟩ ∧
     (update_with_version_check [⟨"users", [⟨1, [("version", 3), ("name", 0)]⟩]⟩]
        (some []) [("users:1", ⟨[[("name", 0)]], 50, "h"⟩)] 100 "a" "s" (fun _ => true)
        (.updateSet "users" ["name", "version"]) [9] "users" 1).cache =
        clear_related_cache [("users:1", ⟨[[("name", 0)]], 50, "h"⟩)] "users" 1) :=
  ⟨by decide, by decide, by decide, by decide, by decide, by decide, by decide,
   claim_c7 [⟨"users", [⟨1, [("version", 3), ("name", 0)]⟩]⟩] (some []) 100 "a" "s"
     (fun _ => true) (.selectCol "name" "users") [1]
     [("users:1", ⟨[[("name", 0)]], 50, "h"⟩)] "users:1" ⟨[[("name", 0)]], 50, "h"⟩
     [] "k2" [[("name", 0)]]
     [("k4", ⟨[], 10, "h"⟩)] "k4" ⟨[], 10, "h"⟩
     [⟨"users", [⟨1, [("version", 3), ("name", 0)]⟩]⟩] (some [])
     [("users:1", ⟨[[("name", 0)]], 50, "h"⟩)] 100 "a" "s" (fun _ => true)
     (.updateSet "users" ["name", "version"]) [9] "users" 1
     (by decide) (by decide) (by decide) (by decide) (by decide) (by decide) (by decide)⟩

theorem versionPrecheck_none_args (db : DB) (q : Stmt) (ps : List Int) :
    versionPrecheck db q ps none none = (.ok (), 0) := rfl

theorem versionPrecheck_extract_none (db : DB) (q : Stmt) (ps : List Int)
    (vc : String) (vv : Int) (h : extract_table_name q.text = none) :
    versionPrecheck db q ps (some vc) (some vv) = (.ok (), 0) := by
  simp only [versionPrecheck]
  cases hvc : vc == ""
  · simp only [Bool.false_eq_true, if_false, h]
  · simp only [if_true]

/-- C9 (implicit): when `execute_update_with_optimistic_lock` is given a
version column and an expected version but either no table name can be
extracted from the query text (it is then indistinguishable from a call with
no version arguments at all), or the `params[0]` point lookup matches no row,
the version check is silently skipped and the update executes exactly as an
unchecked update would — same result, same database, same log — with no
version comparison ever failing. -/
theorem claim_c9 (db : DB) (txlog : TxLogFile) (now : Int) (agent session : String)
    (avail : Nat → Bool) (q1 q2 : Stmt) (ps1 ps2 : List Int)
    (vc1 vc2 : String) (vv1 vv2 : Int) (t : String) (p0 : Int)
    (hA : extract_table_name q1.text = none)
    (hx : extract_table_name q2.text = some t)
    (hvc2 : (vc2 == "") = false)
    (hp : ps2.head? = some p0)
    (hnorow : execStmt db (.selectCol vc2 t) [p0] = .ok (db, ⟨[], -1⟩)) :
    execute_update_with_optimistic_lock db txlog now agent session avail q1 ps1
        (some vc1) (some vv1) =
      execute_update_with_optimistic_lock db txlog now agent session avail q1 ps1
        none none ∧
    (execute_update_with_optimistic_lock db txlog now agent session avail q2 ps2
        (some vc2) (some vv2)).res =
      (execute_update_with_optimistic_lock db txlog now agent session avail q2 ps2
        none none).res ∧
    (execute_update_with_optimistic_lock db txlog now agent session avail q2 ps2
        (some vc2) (some vv2)).db =
      (execute_update_with_optimistic_lock db txlog now agent session avail q2 ps2
        none none).db ∧
    (execute_update_with_optimistic_lock db txlog now agent session avail q2 ps2
        (some vc2) (some vv2)).txlog =
      (execute_update_with_optimistic_lock db txlog now agent session avail q2 ps2
        none none).txlog := by
  have hpre : versionPrecheck db q2 ps2 (some vc2) (some vv2) = (.ok (), 1) := by
    simp only [versionPrecheck, hvc2, Bool.false_eq_true, if_false, hx, hp, hnorow,
      List.head?_nil]
  refine ⟨?_, ?_, ?_, ?_⟩
  · simp only [execute_update_with_optimistic_lock,
      versionPrecheck_extract_none db q1 ps1 vc1 vv1 hA, versionPrecheck_none_args]
  · simp only [execute_update_with_optimistic_lock, hpre, versionPrecheck_none_args]
    cases hg : get_file_lock avail 30
    · rfl
    · cases he : execStmt db q2 ps2 <;> rfl
  · simp only [execute_update_with_optimistic_lock, hpre, versionPrecheck_none_args]
    cases hg : get_file_lock avail 30
    · rfl
    · cases he : execStmt db q2 ps2 <;> rfl
  · simp only [execute_update_with_optimistic_lock, hpre, versionPrecheck_none_args]
    cases hg : get_file_lock avail 30
    · rfl
    · cases he : execStmt db q2 ps2 <;> rfl

/-- C9 witness: a REPLACE statement (no extractable table name) and an update
whose first parameter matches no row id. -/
theorem claim_c9_witness :
    (extract_table_name (Stmt.replaceInto "users" ["name"]).text = none) ∧
    (extract_table_name (Stmt.updateConst "users" "name" 5).text = some "users") ∧
    (("version" == "") = false) ∧
    (([42] : List Int).head? = some 42) ∧
    (execStmt [⟨"users", [⟨1, [("version", 3)]⟩]⟩] (.selectCol "version" "users") [42] =
      .ok ([⟨"users", [⟨1, [("version", 3)]⟩]⟩], ⟨[], -1⟩)) ∧
    (execute_update_with_optimistic_lock [⟨"users", [⟨1, [("version", 3)]⟩]⟩] (some []) 0
        "a" "s" (fun _ => true) (.replaceInto "users" ["name"]) [2, 7]
        (some "version") (some 9) =
      execute_update_with_optimistic_lock [⟨"users", [⟨1, [("version", 3)]⟩]⟩] (some []) 0
        "a" "s" (fun _ => true) (.replaceInto "users" ["name"]) [2, 7] none none ∧
     (execute_update_with_optimistic_lock [⟨"users", [⟨1, [("version", 3)]⟩]⟩] (some []) 0
        "a" "s" (fun _ => true) (.updateConst "users" "name" 5) [42]
        (some "version") (some 9)).res =
      (execute_update_with_optimistic_lock [⟨"users", [⟨1, [("version", 3)]⟩]⟩] (some []) 0
        "a" "s" (fun _ => true) (.updateConst "users" "name" 5) [42] none none).res ∧
     (execute_update_with_optimistic_lock [⟨"users", [⟨1, [("version", 3)]⟩]⟩] (some []) 0
        "a" "s" (fun _ => true) (.updateConst "users" "name" 5) [42]
        (some "version") (some 9)).db =
      (execute_update_with_optimistic_lock [⟨"users", [⟨1, [("version", 3)]⟩]⟩] (some []) 0
        "a" "s" (fun _ => true) (.updateConst "users" "name" 5) [42] none none).db ∧
     (execute_update_with_optimistic_lock [⟨"users", [⟨1, [("version", 3)]⟩]⟩] (some []) 0
        "a" "s" (fun _ => true) (.updateConst "users" "name" 5) [42]
        (some "version") (some 9)).txlog =
      (execute_update_with_optimistic_lock [⟨"users", [⟨1, [("version", 3)]⟩]⟩] (some []) 0
        "a" "s" (fun _ => true) (.updateConst "users" "name" 5) [42] none none).txlog) :=
  ⟨by decide, by decide, by decide, by decide, by decide,
   claim_c9 [⟨"users", [⟨1, [("version", 3)]⟩]⟩] (some []) 0 "a" "s" (fun _ => true)
     (.replaceInto "users" ["name"]) (.updateConst "users" "name" 5) [2, 7] [42]
     "version" "version" 9 9 "users" 42
     (by decide) (by decide) (by decide) (by decide) (by decide)⟩

theorem setAssoc_find (l : List (String × Int)) (c : String) (v : Int) :
    ((setAssoc l c v).find? (fun p => ciEq p.1 c)).map (fun p => p.2) = some v := by
  induction l with
  | nil => simp [setAssoc, List.find?, ciEq_refl]
  | cons p ps ih =>
    simp only [setAssoc]
    cases hp : ciEq p.1 c
    · simp only [Bool.false_eq_true, if_false]
      rw [List.find?_cons_of_neg _ (by simp [hp])]
      exact ih
    · simp only [if_true]
      rw [List.find?_cons_of_pos _ (by simp [hp])]
      simp

theorem getColVal_set_self (r : Row) (c : String) (v : Int) (hc : ciEq c "id" = false) :
    getColVal (setColVal r c v) c = some v := by
  unfold setColVal getColVal
  simp only [hc, Bool.false_eq_true, if_false]
  exact setAssoc_find r.cols c v

theorem setColVal_id (r : Row) (c : String) (v : Int) (hc : ciEq c "id" = false) :
    (setColVal r c v).id = r.id := by
  simp [setColVal, hc]

theorem findTable_one (t t2 : String) (rows : List Row) (h : ciEq t2 t = true) :
    findTable [⟨t, rows⟩] t2 = some ⟨t, rows⟩ := by
  unfold findTable
  rw [List.find?_cons_of_pos]
  show ciEq (Table.mk t rows).name t2 = true
  rw [ciEq_comm]
  exact h

theorem putTable_one (t : String) (rows rows' : List Row) :
    putTable [⟨t, rows⟩] ⟨t, rows'⟩ = [⟨t, rows'⟩] := by
  simp [putTable, ciEq_refl]

theorem selectRows_one_hit (t c : String) (r : Row) (i w : Int)
    (hid : (r.id == i) = true) (hw : getColVal r c = some w) :
    selectRows ⟨t, [r]⟩ c i = .ok [[(c, w)]] := by
  unfold selectRows
  have hfil : ([r].filter (fun r => r.id == i)) = [r] := by simp [hid]
  rw [hfil]
  have hmap : List.mapM (fun r => Option.map (fun v => [(c, v)]) (getColVal r c)) [r]
      = some [[(c, w)]] := by
    rw [List.mapM_cons, List.mapM_nil, hw]
    rfl
  rw [hmap]

theorem selectRows_one_miss (t c : String) (r : Row) (i : Int)
    (hid : (r.id == i) = false) :
    selectRows ⟨t, [r]⟩ c i = .ok [] := by
  unfold selectRows
  have hfil : ([r].filter (fun r => r.id == i)) = [] := by simp [hid]
  rw [hfil]
  rw [show List.mapM (fun r => Option.map (fun v => [(c, v)]) (getColVal r c)) [] =
    some [] from rfl]

theorem execStmt_selectCol_one (t t2 c : String) (r : Row) (i w : Int)
    (hci : ciEq t2 t = true) (hid : (r.id == i) = true) (hw : getColVal r c = some w) :
    execStmt [⟨t, [r]⟩] (.selectCol c t2) [i] = .ok ([⟨t, [r]⟩], ⟨[[(c, w)]], -1⟩) := by
  simp only [execStmt, findTable_one t t2 [r] hci, selectRows_one_hit t c r i w hid hw]

theorem execStmt_selectCol_one_miss (t t2 c : String) (r : Row) (i : Int)
    (hci : ciEq t2 t = true) (hid : (r.id == i) = false) :
    execStmt [⟨t, [r]⟩] (.selectCol c t2) [i] = .ok ([⟨t, [r]⟩], ⟨[], -1⟩) := by
  simp only [execStmt, findTable_one t t2 [r] hci, selectRows_one_miss t c r i hid]

theorem versionPrecheck_one (t t2 : String) (r : Row) (i w vv : Int) (q : Stmt)
    (ps : List Int)
    (hx : extract_table_name q.text = some t2) (hci : ciEq t2 t = true)
    (hp : ps.head? = some i) (hid : (r.id == i) = true)
    (hw : getColVal r "version" = some w) :
    versionPrecheck [⟨t, [r]⟩] q ps (some "version") (some vv) =
      if (w == vv) = true then (.ok (), 1) else (.error (.versionConflict vv w), 1) := by
  have h0 : ("version" == "") = false := by decide
  simp only [versionPrecheck, h0, Bool.false_eq_true, if_false, hx, hp,
    execStmt_selectCol_one t t2 "version" r i w hci hid hw, List.head?_cons]

theorem versionPrecheck_one_miss (t t2 : String) (r : Row) (i vv : Int) (q : Stmt)
    (ps : List Int)
    (hx : extract_table_name q.text = some t2) (hci : ciEq t2 t = true)
    (hp : ps.head? = some i) (hid : (r.id == i) = false) :
    versionPrecheck [⟨t, [r]⟩] q ps (some "version") (some vv) = (.ok (), 1) := by
  have h0 : ("version" == "") = false := by decide
  simp only [versionPrecheck, h0, Bool.false_eq_true, if_false, hx, hp,
    execStmt_selectCol_one_miss t t2 "version" r i hci hid, List.head?_nil]

theorem execStmt_updateConst_one (t c : String) (r : Row) (i vnew : Int)
    (hid : (r.id == i) = true) :
    execStmt [⟨t, [r]⟩] (.updateConst t c vnew) [i] =
      .ok ([⟨t, [setColVal r c vnew]⟩], ⟨[], 1⟩) := by
  have hid' : r.id = i := by simpa using hid
  simp only [execStmt, findTable_one t t [r] (ciEq_refl t)]
  simp [hid', putTable_one]

theorem execStmt_updateSet_one (t : String) (cs : List String) (r : Row)
    (vals : List Int) (i : Int)
    (hlen : vals.length = cs.length) (hid : (r.id == i) = true) :
    execStmt [⟨t, [r]⟩] (.updateSet t cs) (vals ++ [i]) =
      .ok ([⟨t, [setColsVals r cs vals]⟩], ⟨[], 1⟩) := by
  have hlen2 : ((vals ++ [i]).length == cs.length + 1) = true := by
    simp [hlen]
  have htake : (vals ++ [i]).take cs.length = vals := by
    rw [← hlen]
    exact List.take_left vals [i]
  have hid' : r.id = i := by simpa using hid
  simp only [execStmt, hlen2, if_true, findTable_one t t [r] (ciEq_refl t),
    List.getLast?_concat, htake]
  simp [hid', putTable_one]

/-- C1: on a one-row table whose row has `version = v`, a versioned update
following the documented row-id convention and setting `version = v + 1`,
issued with `expected_version = v`, succeeds exactly once: the first call
returns affected count 1 and leaves the stored version equal to `v + 1` (an
increment by exactly one), and the identical second call with the now-stale
`expected_version = v` fails with the version-conflict error, leaving the
database and log untouched.  Moreover
`ConsistencyManager.update_with_version_check` reads the current version `v`,
appends `new_version = v + 1` and the record id to the caller's parameters,
delegates to `execute_update_with_optimistic_lock`, and succeeds leaving the
stored version `v + 1` and the related cache entries cleared. -/
theorem claim_c1 (t t2 : String) (rid v x : Int) (cols : List (String × Int))
    (avail : Nat → Bool) (txlog : TxLogFile) (now : Int) (agent session : String)
    (cache : Cache)
    (hlock : get_file_lock avail 30 = true)
    (hver : getColVal ⟨rid, cols⟩ "version" = some v)
    (hx1 : extract_table_name (Stmt.updateConst t "version" (v + 1)).text = some t2)
    (hx2 : extract_table_name (Stmt.updateSet t ["name", "version"]).text = some t2)
    (hci : ciEq t2 t = true) :
    execute_update_with_optimistic_lock [⟨t, [⟨rid, cols⟩]⟩] txlog now agent session avail
        (.updateConst t "version" (v + 1)) [rid] (some "version") (some v) =
      ⟨.ok 1, [⟨t, [setColVal ⟨rid, cols⟩ "version" (v + 1)]⟩],
       log_transaction txlog ⟨now, agent, session, "update",
         (Stmt.updateConst t "version" (v + 1)).text, [rid], .int 1⟩, true, 2⟩ ∧
    getColVal (setColVal ⟨rid, cols⟩ "version" (v + 1)) "version" = some (v + 1) ∧
    execute_update_with_optimistic_lock [⟨t, [setColVal ⟨rid, cols⟩ "version" (v + 1)]⟩]
        txlog now agent session avail
        (.updateConst t "version" (v + 1)) [rid] (some "version") (some v) =
      ⟨.error (.versionConflict v (v + 1)),
       [⟨t, [setColVal ⟨rid, cols⟩ "version" (v + 1)]⟩], txlog, true, 1⟩ ∧
    (update_with_version_check [⟨t, [⟨rid, cols⟩]⟩] txlog cache now agent session avail
        (.updateSet t ["name", "version"]) [x] t rid).success = true ∧
    (update_with_version_check [⟨t, [⟨rid, cols⟩]⟩] txlog cache now agent session avail
        (.updateSet t ["name", "version"]) [x] t rid).db =
      [⟨t, [setColVal (setColVal ⟨rid, cols⟩ "name" x) "version" (v + 1)]⟩] ∧
    getColVal (setColVal (setColVal ⟨rid, cols⟩ "name" x) "version" (v + 1)) "version"
        = some (v + 1) ∧
    (update_with_version_check [⟨t, [⟨rid, cols⟩]⟩] txlog cache now agent session avail
        (.updateSet t ["name", "version"]) [x] t rid).cache =
      clear_related_cache cache t rid := by
  have hvid : ciEq "version" "id" = false := by decide
  have hidr : ((Row.mk rid cols).id == rid) = true := by simp
  have hgetset : getColVal (setColVal ⟨rid, cols⟩ "version" (v + 1)) "version"
      = some (v + 1) := getColVal_set_self ⟨rid, cols⟩ "version" (v + 1) hvid
  -- part A1: the first conforming versioned update succeeds and bumps the version
  have hA1 : execute_update_with_optimistic_lock [⟨t, [⟨rid, cols⟩]⟩] txlog now agent
      session avail (.updateConst t "version" (v + 1)) [rid] (some "version") (some v) =
      ⟨.ok 1, [⟨t, [setColVal ⟨rid, cols⟩ "version" (v + 1)]⟩],
       log_transaction txlog ⟨now, agent, session, "update",
         (Stmt.updateConst t "version" (v + 1)).text, [rid], .int 1⟩, true, 2⟩ := by
    have hpre := versionPrecheck_one t t2 ⟨rid, cols⟩ rid v v
      (.updateConst t "version" (v + 1)) [rid] hx1 hci rfl hidr hver
    simp only [beq_self_eq_true, if_true] at hpre
    simp only [execute_update_with_optimistic_lock, hlock, if_true, hpre,
      execStmt_updateConst_one t "version" ⟨rid, cols⟩ rid (v + 1) hidr]
  -- part A2: the stale retry conflicts and changes nothing
  have hid1 : ((setColVal ⟨rid, cols⟩ "version" (v + 1)).id == rid) = true := by
    rw [setColVal_id ⟨rid, cols⟩ "version" (v + 1) hvid]
    simp
  have hA2 : execute_update_with_optimistic_lock
      [⟨t, [setColVal ⟨rid, cols⟩ "version" (v + 1)]⟩] txlog now agent session avail
      (.updateConst t "version" (v + 1)) [rid] (some "version") (some v) =
      ⟨.error (.versionConflict v (v + 1)),
       [⟨t, [setColVal ⟨rid, cols⟩ "version" (v + 1)]⟩], txlog, true, 1⟩ := by
    have hpre := versionPrecheck_one t t2 (setColVal ⟨rid, cols⟩ "version" (v + 1))
      rid (v + 1) v (.updateConst t "version" (v + 1)) [rid] hx1 hci rfl hid1 hgetset
    have hne : ((v + 1 : Int) == v) = false := by
      rw [beq_eq_false_iff_ne]
      omega
    rw [hne] at hpre
    simp only [Bool.false_eq_true, if_false] at hpre
    simp only [execute_update_with_optimistic_lock, hlock, if_true, hpre]
  -- part B: the wrapper reads v, appends v + 1, delegates, succeeds
  have hvq : execute_query_with_consistency [⟨t, [⟨rid, cols⟩]⟩] txlog now agent session
      avail (.selectCol "version" t) [rid] "read_committed" =
      ⟨.ok [[("version", v)]],
       log_transaction txlog ⟨now, agent, session, "query",
         (Stmt.selectCol "version" t).text, [rid], .int 1⟩, false⟩ := by
    have hrc : (("read_committed" == "serializable") = false) := by decide
    simp only [execute_query_with_consistency, hrc, Bool.false_eq_true, if_false,
      runQueryStmt, execStmt_selectCol_one t t "version" ⟨rid, cols⟩ rid v (ciEq_refl t)
        hidr hver]
    norm_num
  have hpreB : versionPrecheck [⟨t, [⟨rid, cols⟩]⟩] (.updateSet t ["name", "version"])
      [x, v + 1, rid] (some "version") (some v) = (.ok (), 1) := by
    cases hidx : ((Row.mk rid cols).id == x)
    · exact versionPrecheck_one_miss t t2 ⟨rid, cols⟩ x v
        (.updateSet t ["name", "version"]) [x, v + 1, rid] hx2 hci rfl hidx
    · have := versionPrecheck_one t t2 ⟨rid, cols⟩ x v v
        (.updateSet t ["name", "version"]) [x, v + 1, rid] hx2 hci rfl hidx hver
      simpa using this
  have hup : execStmt [⟨t, [⟨rid, cols⟩]⟩] (.updateSet t ["name", "version"])
      ([x, v + 1] ++ [rid]) =
      .ok ([⟨t, [setColsVals ⟨rid, cols⟩ ["name", "version"] [x, v + 1]]⟩], ⟨[], 1⟩) :=
    execStmt_updateSet_one t ["name", "version"] ⟨rid, cols⟩ [x, v + 1] rid rfl hidr
  have hsetsv : setColsVals (Row.mk rid cols) ["name", "version"] [x, v + 1] =
      setColVal (setColVal ⟨rid, cols⟩ "name" x) "version" (v + 1) := rfl
  have hu : execute_update_with_optimistic_lock [⟨t, [⟨rid, cols⟩]⟩]
      (log_transaction txlog ⟨now, agent, session, "query",
        (Stmt.selectCol "version" t).text, [rid], .int 1⟩) now agent session avail
      (.updateSet t ["name", "version"]) [x, v + 1, rid] (some "version") (some v) =
      ⟨.ok 1, [⟨t, [setColVal (setColVal ⟨rid, cols⟩ "name" x) "version" (v + 1)]⟩],
       log_transaction
         (log_transaction txlog ⟨now, agent, session, "query",
           (Stmt.selectCol "version" t).text, [rid], .int 1⟩)
         ⟨now, agent, session, "update", (Stmt.updateSet t ["name", "version"]).text,
          [x, v + 1, rid], .int 1⟩, true, 2⟩ := by
    rw [hsetsv] at hup
    simp only [execute_update_with_optimistic_lock, hlock, if_true, hpreB]
    rw [show ([x, v + 1, rid] : List Int) = [x, v + 1] ++ [rid] from rfl, hup]
  have hB : update_with_version_check [⟨t, [⟨rid, cols⟩]⟩] txlog cache now agent session
      avail (.updateSet t ["name", "version"]) [x] t rid =
      ⟨true, [⟨t, [setColVal (setColVal ⟨rid, cols⟩ "name" x) "version" (v + 1)]⟩],
       log_transaction
         (log_transaction txlog ⟨now, agent, session, "query",
           (Stmt.selectCol "version" t).text, [rid], .int 1⟩)
         ⟨now, agent, session, "update", (Stmt.updateSet t ["name", "version"]).text,
          [x, v + 1, rid], .int 1⟩,
       clear_related_cache cache t rid⟩ := by
    simp only [update_with_version_check, hvq, List.head?_cons]
    rw [List.find?_cons_of_pos _ (by simp)]
    simp only
    rw [show (([x] : List Int) ++ [v + 1, rid]) = [x, v + 1, rid] from rfl, hu]
    rfl
  have hgetset2 : getColVal (setColVal (setColVal ⟨rid, cols⟩ "name" x) "version" (v + 1))
      "version" = some (v + 1) :=
    getColVal_set_self (setColVal ⟨rid, cols⟩ "name" x) "version" (v + 1) hvid
  refine ⟨hA1, hgetset, hA2, ?_, ?_, hgetset2, ?_⟩ <;> rw [hB]

/-- C1 witness: a concrete one-row `users` table at version 3. -/
theorem claim_c1_witness :
    (get_file_lock (fun _ => true) 30 = true) ∧
    (getColVal ⟨1, [("version", 3), ("name", 0)]⟩ "version" = some 3) ∧
    (extract_table_name (Stmt.updateConst "users" "version" (3 + 1)).text = some "users") ∧
    (extract_table_name (Stmt.updateSet "users" ["name", "version"]).text = some "users") ∧
    (ciEq "users" "users" = true) ∧
    (execute_update_with_optimistic_lock
        [⟨"users", [⟨1, [("version", 3), ("name", 0)]⟩]⟩] (some []) 100 "a" "s"
        (fun _ => true) (.updateConst "users" "version" (3 + 1)) [1]
        (some "version") (some 3) =
      ⟨.ok 1, [⟨"users", [setColVal ⟨1, [("version", 3), ("name", 0)]⟩ "version" (3 + 1)]⟩],
       log_transaction (some []) ⟨100, "a", "s", "update",
         (Stmt.updateConst "users" "version" (3 + 1)).text, [1], .int 1⟩, true, 2⟩ ∧
     getColVal (setColVal ⟨1, [("version", 3), ("name", 0)]⟩ "version" (3 + 1)) "version"
        = some (3 + 1) ∧
     execute_update_with_optimistic_lock
        [⟨"users", [setColVal ⟨1, [("version", 3), ("name", 0)]⟩ "version" (3 + 1)]⟩]
        (some []) 100 "a" "s" (fun _ => true)
        (.updateConst "users" "version" (3 + 1)) [1] (some "version") (some 3) =
      ⟨.error (.versionConflict 3 (3 + 1)),
       [⟨"users", [setColVal ⟨1, [("version", 3), ("name", 0)]⟩ "version" (3 + 1)]⟩],
       some [], true, 1⟩ ∧
     (update_with_version_check [⟨"users", [⟨1, [("version", 3), ("name", 0)]⟩]⟩]
        (some []) [("users:1", ⟨[], 0, "h"⟩)] 100 "a" "s" (fun _ => true)
        (.updateSet "users" ["name", "version"]) [9] "users" 1).success = true ∧
     (update_with_version_check [⟨"users", [⟨1, [("version", 3), ("name", 0)]⟩]⟩]
        (some []) [("users:1", ⟨[], 0, "h"⟩)] 100 "a" "s" (fun _ => true)
        (.updateSet "users" ["name", "version"]) [9] "users" 1).db =
      [⟨"users", [setColVal (setColVal ⟨1, [("version", 3), ("name", 0)]⟩ "name" 9)
        "version" (3 + 1)]⟩] ∧
     getColVal (setColVal (setColVal ⟨1, [("version", 3), ("name", 0)]⟩ "name" 9)
        "version" (3 + 1)) "version" = some (3 + 1) ∧
     (update_with_version_check [⟨"users", [⟨1, [("version", 3), ("name", 0)]⟩]⟩]
        (some []) [("users:1", ⟨[], 0, "h"⟩)] 100 "a" "s" (fun _ => true)
        (.updateSet "users" ["name", "version"]) [9] "users" 1).cache =
      clear_related_cache [("users:1", ⟨[], 0, "h"⟩)] "users" 1) :=
  ⟨rfl, by decide, by decide, by decide, by decide,
   claim_c1 "users" "users" 1 3 9 [("version", 3), ("name", 0)] (fun _ => true)
     (some []) 100 "a" "s" [("users:1", ⟨[], 0, "h"⟩)]
     rfl (by decide) (by decide) (by decide) (by decide)⟩

end SqliteMcp
